import Mathlib

/-!
Verification of the authentication and session-renewal pipeline of the
`bashbayserver` venue-booking API (Go sources under `internal/`).

The development shallowly embeds the three source units the pipeline lives in:

* `internal/helpers/helpers.go`  — `ValidateToken` (bearer-credential validation
  against a remote JWKS, with an unverified-decode fallback);
* `internal/middleware/middleware.go` — `AuthMiddleware` (cookie extraction,
  renewal via the refresh token, identity enrichment);
* `internal/helpers/claims.go`   — `EnhancedClaims` and its role predicates;
* `internal/config/config.go`    — `LoadConfig` (startup configuration checks).

External effects (the JWKS network fetch, the token-refresh exchange, the
profile-store lookup, the process environment and the wall clock) are passed in
explicitly as values describing the outcome each external call would produce
for the one request under consideration; every Go function becomes a pure Lean
function of its inputs and that explicit world.
-/

namespace Bashbay

deriving instance DecidableEq for Except

/-- Decoded payload of a bearer credential, mirroring `helpers.CustomClaims`
(`internal/helpers/helpers.go:26-36`).  Only the fields the pipeline ever
reads are carried: `Role` and `Email` (top-level JSON fields) and, from the
embedded `jwt.RegisteredClaims`, `Subject`, `Issuer` and `ExpiresAt`
(seconds since epoch, absent when the token has no `exp` claim).  The
`AppMetadata`/`UserMetadata` maps are decoded by the Go code but never read
by the validator or the middleware, so they are omitted from the model. -/
structure CustomClaims where
  Role : String
  Email : String
  Subject : String
  Issuer : String
  ExpiresAt : Option Int
  deriving Repr, DecidableEq

/-- A bearer-credential string together with what the `golang-jwt/v5` library
finds in it: `raw` is the literal cookie/response string (the middleware
compares it against `""` and stores it back into cookies); `structOk` says
whether the string parses as a JWT at all (three base64 segments with valid
JSON header and payload); `claims` is the decoded payload; `kid` is the key
identifier from the header; `sigOk` says whether the signature verifies under
the key that the fetched key set publishes for `kid`. -/
structure TokenStr where
  raw : String
  structOk : Bool
  claims : CustomClaims
  kid : String
  sigOk : Bool
  deriving Repr, DecidableEq

/-- The fetched remote key set, abstracted to the list of key identifiers it
publishes (`keyfunc` resolves a token's `kid` against exactly this set). -/
abbrev KeySet := List String

/-- The slice of the process environment read by `helpers.ValidateToken`. -/
structure Env where
  SUPABASE_URL : String
  deriving Repr, DecidableEq

/-- Model of `jwt.NewParser().ParseUnverified(tokenStr, &CustomClaims{})`:
a pure structural decode — no signature check and no claims (expiry)
validation; it fails only when the string is not a structurally valid JWT. -/
def parseUnverified (t : TokenStr) : Except String CustomClaims :=
  if t.structOk then .ok t.claims
  else .error "token contains an invalid number of segments"

/-- `true` when the token is not yet expired at instant `now` (the
`golang-jwt/v5` default validator rejects a present `exp` strictly in the
past and accepts a token without an `exp` claim). -/
def notYetExpired (now : Int) (c : CustomClaims) : Bool :=
  match c.ExpiresAt with
  | some e => decide (now ≤ e)
  | none => true

/-- Model of `jwt.ParseWithClaims(tokenStr, &CustomClaims{}, jwks.Keyfunc)`:
structural parse, key lookup by `kid` in the fetched key set, signature
verification, then registered-claims validation — which, with the default
parser options used by the source, checks expiry but not the issuer.  The
error strings approximate the library's messages; no theorem below depends
on their exact text, only on the `"token validation failed: "` prefix that
`ValidateToken` itself prepends. -/
def parseWithClaims (ks : KeySet) (now : Int) (t : TokenStr) :
    Except String CustomClaims :=
  if ¬ t.structOk then .error "token is malformed"
  else if ¬ ks.contains t.kid then .error "no matching key found for kid"
  else if ¬ t.sigOk then .error "token signature is invalid"
  else if ¬ notYetExpired now t.claims then
    .error "token has invalid claims: token is expired"
  else .ok t.claims

/-- Embedding of `helpers.ValidateToken` (`internal/helpers/helpers.go:48-92`).
`jwksFetch` is the outcome of `keyfunc.Get` on the JWKS URL (a network call:
either the fetched key set or an error); `now` is the validation instant.
The Go code's final `!ok || !token.Valid` guard is unreachable — the claims
type assertion always succeeds for the claims value passed in, and
`ParseWithClaims` returns a valid token exactly when it returns no error —
so the success branch returns the claims directly. -/
def ValidateToken (env : Env) (jwksFetch : Except String KeySet) (now : Int)
    (t : TokenStr) : Except String CustomClaims :=
  if env.SUPABASE_URL = "" then .error "SUPABASE_URL not set"
  else
    match jwksFetch with
    | .error _ =>
      -- Fallback to unverified parsing if JWKS fails (for development)
      match parseUnverified t with
      | .error parseErr =>
        .error ("JWKS validation failed and fallback parsing failed: " ++ parseErr)
      | .ok claims => .ok claims
    | .ok ks =>
      match parseWithClaims ks now t with
      | .error e => .error ("token validation failed: " ++ e)
      | .ok claims => .ok claims

/-- The package-level mutable state of `internal/helpers/helpers.go`: the
lazily compiled profanity regex (`profanityOnce`/`profanityRegex`).  It is
the only process state a call in the helpers package could mutate;
`ValidateToken` never touches it (the JWKS object it creates is local to the
call and torn down by `jwks.EndBackground()`). -/
structure HelpersState where
  profanityCompiled : Bool
  deriving Repr, DecidableEq

/-- `ValidateToken` as an explicit state-passing function over the package
state, making visible that a call leaves the process state unchanged. -/
def ValidateTokenSt (st : HelpersState) (env : Env)
    (jwksFetch : Except String KeySet) (now : Int) (t : TokenStr) :
    Except String CustomClaims × HelpersState :=
  (ValidateToken env jwksFetch now t, st)

/-- Mirror of `supabase gotrue types.TokenResponse` as used by the middleware:
the new access token (as the string the provider returned, coupled with what
the jwt library would find in it), the new refresh token, and the
provider-specified expiry in seconds. -/
structure TokenResponse where
  AccessToken : TokenStr
  RefreshToken : String
  ExpiresIn : Int
  deriving Repr, DecidableEq

/-- Outcome of `userService.RefreshToken(refreshToken)` for this request:
an error, a non-error response that is not a `*types.TokenResponse` (the
middleware's type assertion fails), or a token response. -/
inductive RefreshOutcome where
  | err (msg : String)
  | okNonToken
  | okToken (res : TokenResponse)
  deriving Repr, DecidableEq

/-- The profile-store record as used by the middleware (`models.User` fields
read in `internal/middleware/middleware.go:213-224`); `CreatedAt` is carried
already formatted as the RFC3339 string the middleware produces. -/
structure User where
  Role : String
  Username : String
  FullName : String
  PhoneNumber : String
  AvatarURL : String
  CreatedAt : String
  deriving Repr, DecidableEq

/-- The two cookies the middleware reads from the incoming request:
`access_token` (a bearer credential, absent when the cookie is missing) and
`refresh_token` (an opaque string, never inspected, only forwarded). -/
structure Request where
  accessCookie : Option TokenStr
  refreshCookie : Option String
  deriving Repr, DecidableEq

/-- The external world one request's trip through `AuthMiddleware` can
observe: the validator's environment, the JWKS-fetch outcome and clock
(shared by both validation calls inside one request), the outcome of the
refresh exchange, the outcome of the profile lookup, and `GIN_MODE`. -/
structure MwWorld where
  env : Env
  jwksFetch : Except String KeySet
  now : Int
  refreshOutcome : RefreshOutcome
  getUserOutcome : Except String User
  GIN_MODE : String

/-- One `c.SetCookie(name, value, maxAge, path, domain, secure, httpOnly)`
call recorded on the response. -/
structure SetCookieCall where
  name : String
  value : String
  maxAge : Int
  path : String
  domain : String
  secure : Bool
  httpOnly : Bool
  deriving Repr, DecidableEq

/-- Embedding of `helpers.EnhancedClaims` (`internal/helpers/claims.go:3-13`). -/
structure EnhancedClaims where
  CustomClaims : CustomClaims
  Role : String
  UserID : String
  Username : String
  Email : String
  Fullname : String
  PhoneNumber : String
  AvatarURL : String
  CreatedAt : String
  deriving Repr, DecidableEq

/-- `claims.go:16-18`. -/
def EnhancedClaims.IsAdmin (ec : EnhancedClaims) : Bool := ec.Role == "admin"

/-- `claims.go:20-22`. -/
def EnhancedClaims.IsHost (ec : EnhancedClaims) : Bool := ec.Role == "host"

/-- `claims.go:24-26`. -/
def EnhancedClaims.HasRole (ec : EnhancedClaims) (role : String) : Bool :=
  ec.Role == role

/-- `claims.go:28-30`: raw string comparison of the stored user identifier. -/
def EnhancedClaims.IsOwner (ec : EnhancedClaims) (userID : String) : Bool :=
  ec.UserID == userID

/-- `claims.go:32-37`. -/
def EnhancedClaims.GetSafeRole (ec : EnhancedClaims) : String :=
  if ec.Role = "" then "guest" else ec.Role

/-- How `AuthMiddleware` ends: a `c.JSON(status, ...); c.Abort()` rejection
with the fixed message and a reason string, or `c.Set("user", ...); c.Next()`
with the enriched identity attached. -/
inductive AuthResult where
  | reject (status : Nat) (message : String) (errorReason : String)
  | proceed (user : EnhancedClaims)
  deriving Repr, DecidableEq

/-- An external call issued while handling the request: a token-refresh
exchange (`userService.RefreshToken`) or a profile lookup
(`userService.GetUser`, recorded with the subject and the access token it
was called under). -/
inductive ExtCall where
  | refreshCall (refreshToken : String)
  | getUserCall (userID : String) (accessTokenRaw : String)
  deriving Repr, DecidableEq

/-- Everything observable about one request's trip through the middleware:
the terminal action, the `Set-Cookie` calls made on the response (in order),
and the external calls issued (in order). -/
structure MwOutput where
  result : AuthResult
  cookies : List SetCookieCall
  calls : List ExtCall
  deriving Repr, DecidableEq

def isHexDigit (c : Char) : Bool :=
  c.isDigit || (('a' ≤ c && c ≤ 'f') || ('A' ≤ c && c ≤ 'F'))

def uuidSlotOk (i : Nat) (c : Char) : Bool :=
  if i = 8 || i = 13 || i = 18 || i = 23 then c == '-' else isHexDigit c

/-- Model of `uuid.Parse(claims.Subject)` succeeding: the subject is in the
canonical `xxxxxxxx-xxxx-xxxx-xxxx-xxxxxxxxxxxx` hexadecimal form.  The
middleware only branches on whether the parse succeeds, never on the parsed
value beyond its string form. -/
def isUUID (s : String) : Bool :=
  s.length == 36 && (s.toList.enum.all fun p => uuidSlotOk p.1 p.2)

/-- `time.Time{}.Format(time.RFC3339)`: the formatted Go zero time, produced
when the `createdAt` local variable is never assigned. -/
def zeroTimeRFC3339 : String := "0001-01-01T00:00:00Z"

/-- The identity-enrichment tail of `AuthMiddleware`
(`internal/middleware/middleware.go:195-243`): parse the subject as a UUID;
on parse failure use role `"guest"` with empty profile fields; otherwise
fetch the profile with the (possibly refreshed) access token — lookup
failure degrades to `"guest"`, success with an empty role also degrades to
`"guest"`.  Always proceeds; `cookies` and `calls` are what the earlier part
of the middleware already produced. -/
def enrichIdentity (w : MwWorld) (token : TokenStr) (claims : CustomClaims)
    (cookies : List SetCookieCall) (calls : List ExtCall) : MwOutput :=
  if isUUID claims.Subject then
    match w.getUserOutcome with
    | .error _ =>
      ⟨.proceed ⟨claims, "guest", claims.Subject, "", claims.Email, "", "", "",
          zeroTimeRFC3339⟩,
        cookies, calls ++ [.getUserCall claims.Subject token.raw]⟩
    | .ok user =>
      let profileRole := if user.Role = "" then "guest" else user.Role
      ⟨.proceed ⟨claims, profileRole, claims.Subject, user.Username, claims.Email,
          user.FullName, user.PhoneNumber, user.AvatarURL, user.CreatedAt⟩,
        cookies, calls ++ [.getUserCall claims.Subject token.raw]⟩
  else
    ⟨.proceed ⟨claims, "guest", claims.Subject, "", claims.Email, "", "", "",
        zeroTimeRFC3339⟩,
      cookies, calls⟩

/-- Embedding of `middleware.AuthMiddleware`
(`internal/middleware/middleware.go:106-245`): read the `access_token`
cookie (absence → 401 `"JWT token not found in cookie"`); validate it; on
validation failure read the `refresh_token` cookie (absence → 401 with the
validation error's text); exchange it (failure → 401
`"Token expired and refresh failed"`); on a token response with a non-empty
access token, set both cookies, re-validate the new token (failure → 401
`"Refreshed token validation failed"` — the cookies were already set), and
enrich; a non-token or empty-token response → 401
`"Invalid refresh response"`. -/
def AuthMiddleware (w : MwWorld) (req : Request) : MwOutput :=
  match req.accessCookie with
  | none =>
    ⟨.reject 401 "Unauthorized access" "JWT token not found in cookie", [], []⟩
  | some token =>
    match ValidateToken w.env w.jwksFetch w.now token with
    | .ok claims => enrichIdentity w token claims [] []
    | .error errMsg =>
      match req.refreshCookie with
      | none => ⟨.reject 401 "Unauthorized access" errMsg, [], []⟩
      | some refreshTok =>
        let calls : List ExtCall := [.refreshCall refreshTok]
        match w.refreshOutcome with
        | .err _ =>
          ⟨.reject 401 "Unauthorized access" "Token expired and refresh failed",
            [], calls⟩
        | .okNonToken =>
          ⟨.reject 401 "Unauthorized access" "Invalid refresh response", [], calls⟩
        | .okToken res =>
          if res.AccessToken.raw ≠ "" then
            let isProduction := w.GIN_MODE == "production"
            let cookies : List SetCookieCall :=
              [⟨"access_token", res.AccessToken.raw, res.ExpiresIn, "/", "",
                  isProduction, true⟩,
                ⟨"refresh_token", res.RefreshToken, 3600 * 24 * 30, "/", "",
                  isProduction, true⟩]
            match ValidateToken w.env w.jwksFetch w.now res.AccessToken with
            | .error _ =>
              ⟨.reject 401 "Unauthorized access" "Refreshed token validation failed",
                cookies, calls⟩
            | .ok claims2 => enrichIdentity w res.AccessToken claims2 cookies calls
          else
            ⟨.reject 401 "Unauthorized access" "Invalid refresh response", [], calls⟩

/-- The slice of the process environment read by `config.LoadConfig`
(`internal/config/config.go:21-35`). -/
structure ProcessEnv where
  PORT : String
  SUPABASE_URL : String
  SUPABASE_URL_ANON_KEY : String
  MONGODB_URI : String
  CLOUDINARY_CLOUD_NAME : String
  CLOUDINARY_API_KEY : String
  CLOUDINARY_API_SECRET : String
  MONGODB_PASSWORD : String
  ENVIRONMENT : String
  LOG_LEVEL : String
  deriving Repr, DecidableEq

/-- `config.getEnvWithDefault` (`internal/config/config.go:65-70`), applied to
the already-read variable value. -/
def getEnvWithDefault (value default : String) : String :=
  if value ≠ "" then value else default

/-- `config.Config` (`internal/config/config.go:8-19`). -/
structure Config where
  Port : String
  SupabaseURL : String
  SupabaseAnonKey : String
  MongoDBURI : String
  CloudinaryCloudName : String
  CloudinaryAPIKey : String
  CloudinaryAPISecret : String
  MongoDBPassword : String
  Environment : String
  LogLevel : String
  deriving Repr, DecidableEq

/-- Embedding of `config.LoadConfig` (`internal/config/config.go:21-63`),
called once from `main` before the server starts; an error makes the process
exit (`cmd/api/main.go:25-28`).  The misspelled `CLODINARY_*` messages are
the source's own. -/
def LoadConfig (e : ProcessEnv) : Except String Config :=
  let cfg : Config :=
    ⟨getEnvWithDefault e.PORT "8080", e.SUPABASE_URL, e.SUPABASE_URL_ANON_KEY,
      e.MONGODB_URI, e.CLOUDINARY_CLOUD_NAME, e.CLOUDINARY_API_KEY,
      e.CLOUDINARY_API_SECRET, e.MONGODB_PASSWORD,
      getEnvWithDefault e.ENVIRONMENT "development",
      getEnvWithDefault e.LOG_LEVEL "info"⟩
  if cfg.SupabaseURL = "" then .error "SUPABASE_URL is required"
  else if cfg.SupabaseAnonKey = "" then .error "SUPABASE_URL_ANON_KEY is required"
  else if cfg.MongoDBURI = "" then .error "MONGODB_URI is required"
  else if cfg.MongoDBPassword = "" then .error "MONGODB_PASSWORD is required"
  else if cfg.CloudinaryCloudName = "" then .error "CLODINARY_CLOUD_NAME is required"
  else if cfg.CloudinaryAPIKey = "" then .error "CLODINARY_API_KEY is required"
  else if cfg.CloudinaryAPISecret = "" then .error "CLODINARY_API_SECRET is required"
  else .ok cfg

theorem enrichIdentity_spec (w : MwWorld) (token : TokenStr)
    (claims : CustomClaims) (cookies : List SetCookieCall) (calls : List ExtCall) :
    ∃ id, (enrichIdentity w token claims cookies calls).result = .proceed id ∧
      id.CustomClaims = claims ∧ id.UserID = claims.Subject ∧ id.Role ≠ "" := by
  unfold enrichIdentity
  by_cases hu : isUUID claims.Subject
  · cases hg : w.getUserOutcome with
    | error e =>
      refine ⟨⟨claims, "guest", claims.Subject, "", claims.Email, "", "", "",
        zeroTimeRFC3339⟩, ?_, rfl, rfl, by simp⟩
      simp [hu, hg]
    | ok user =>
      refine ⟨⟨claims, if user.Role = "" then "guest" else user.Role,
        claims.Subject, user.Username, claims.Email, user.FullName,
        user.PhoneNumber, user.AvatarURL, user.CreatedAt⟩, ?_, rfl, rfl, ?_⟩
      · simp [hu, hg]
      · by_cases hr : user.Role = "" <;> simp [hr]
  · refine ⟨⟨claims, "guest", claims.Subject, "", claims.Email, "", "", "",
      zeroTimeRFC3339⟩, ?_, rfl, rfl, by simp⟩
    simp [hu]

theorem enrichIdentity_cookies (w : MwWorld) (token : TokenStr)
    (claims : CustomClaims) (cookies : List SetCookieCall) (calls : List ExtCall) :
    (enrichIdentity w token claims cookies calls).cookies = cookies := by
  unfold enrichIdentity
  by_cases hu : isUUID claims.Subject
  · cases hg : w.getUserOutcome <;> simp [hu, hg]
  · simp [hu]

theorem enrichIdentity_no_refresh (w : MwWorld) (token : TokenStr)
    (claims : CustomClaims) (cookies : List SetCookieCall) (calls : List ExtCall)
    (rt : String)
    (h : ExtCall.refreshCall rt ∈ (enrichIdentity w token claims cookies calls).calls) :
    ExtCall.refreshCall rt ∈ calls := by
  unfold enrichIdentity at h
  by_cases hu : isUUID claims.Subject
  · cases hg : w.getUserOutcome with
    | error e => simpa [hu, hg] using h
    | ok user => simpa [hu, hg] using h
  · simpa [hu] using h

/-- Claim C1: when the remote key-set fetch fails, token validation does not
abort the pipeline — `ValidateToken` decodes the structurally well-formed
credential without any signature check and returns its claims, and
`AuthMiddleware` then proceeds through enrichment carrying exactly those
unverified claims. -/
theorem claim_C1_fallback_unverified_decode (w : MwWorld) (req : Request)
    (tok : TokenStr) (m : String)
    (hurl : w.env.SUPABASE_URL ≠ "")
    (hfetch : w.jwksFetch = .error m)
    (hcookie : req.accessCookie = some tok)
    (hstruct : tok.structOk = true) :
    ValidateToken w.env w.jwksFetch w.now tok = .ok tok.claims ∧
    ∃ id, (AuthMiddleware w req).result = .proceed id ∧
      id.CustomClaims = tok.claims := by
  have hval : ValidateToken w.env w.jwksFetch w.now tok = .ok tok.claims := by
    simp [ValidateToken, hurl, hfetch, parseUnverified, hstruct]
  refine ⟨hval, ?_⟩
  have hmw : AuthMiddleware w req = enrichIdentity w tok tok.claims [] [] := by
    simp [AuthMiddleware, hcookie, hval]
  obtain ⟨id, hres, hcc, -, -⟩ := enrichIdentity_spec w tok tok.claims [] []
  exact ⟨id, by rw [hmw]; exact hres, hcc⟩

theorem claim_C1_witness :
    (⟨"u"⟩ : Env).SUPABASE_URL ≠ "" ∧
    (Except.error "net" : Except String KeySet) = .error "net" ∧
    (some (⟨"t", true, ⟨"", "e@x", "s", "iss", some 0⟩, "k1", false⟩ : TokenStr) :
        Option TokenStr) = some ⟨"t", true, ⟨"", "e@x", "s", "iss", some 0⟩, "k1", false⟩ ∧
    (⟨"t", true, ⟨"", "e@x", "s", "iss", some 0⟩, "k1", false⟩ : TokenStr).structOk = true ∧
    (ValidateToken ⟨"u"⟩ (.error "net") 100
        ⟨"t", true, ⟨"", "e@x", "s", "iss", some 0⟩, "k1", false⟩ =
      .ok ⟨"", "e@x", "s", "iss", some 0⟩ ∧
    ∃ id, (AuthMiddleware
        ⟨⟨"u"⟩, .error "net", 100, .okNonToken, .error "nouser", "debug"⟩
        ⟨some ⟨"t", true, ⟨"", "e@x", "s", "iss", some 0⟩, "k1", false⟩, none⟩).result
          = .proceed id ∧
      id.CustomClaims = ⟨"", "e@x", "s", "iss", some 0⟩) :=
  ⟨by decide, rfl, rfl, by decide,
    claim_C1_fallback_unverified_decode
      ⟨⟨"u"⟩, .error "net", 100, .okNonToken, .error "nouser", "debug"⟩
      ⟨some ⟨"t", true, ⟨"", "e@x", "s", "iss", some 0⟩, "k1", false⟩, none⟩
      ⟨"t", true, ⟨"", "e@x", "s", "iss", some 0⟩, "k1", false⟩ "net"
      (by decide) rfl rfl rfl⟩

theorem enrichIdentity_proceed_inv (w : MwWorld) (token : TokenStr)
    (claims : CustomClaims) (cookies : List SetCookieCall) (calls : List ExtCall)
    (id : EnhancedClaims)
    (h : (enrichIdentity w token claims cookies calls).result = .proceed id) :
    id.CustomClaims = claims ∧ id.UserID = claims.Subject ∧ id.Role ≠ "" := by
  unfold enrichIdentity at h
  by_cases hu : isUUID claims.Subject
  · cases hg : w.getUserOutcome with
    | error e =>
      simp [hu, hg] at h
      subst h
      exact ⟨rfl, rfl, by simp⟩
    | ok user =>
      simp [hu, hg] at h
      subst h
      refine ⟨rfl, rfl, ?_⟩
      by_cases hr : user.Role = "" <;> simp [hr]
  · simp [hu] at h
    subst h
    exact ⟨rfl, rfl, by simp⟩

/-- Claim C2: every request that reaches identity enrichment yields an
`EnhancedClaims` whose role is non-empty — an unparsable subject, a failed
profile fetch, and a profile with an empty role all resolve to `"guest"` —
and enrichment never rejects the request; consequently every identity the
middleware attaches has a non-empty role. -/
theorem claim_C2_enriched_role_nonempty :
    (∀ (w : MwWorld) (token : TokenStr) (claims : CustomClaims)
        (cookies : List SetCookieCall) (calls : List ExtCall),
      ∃ id, (enrichIdentity w token claims cookies calls).result = .proceed id ∧
        id.Role ≠ "") ∧
    (∀ (w : MwWorld) (req : Request) (id : EnhancedClaims),
      (AuthMiddleware w req).result = .proceed id → id.Role ≠ "") := by
  constructor
  · intro w token claims cookies calls
    obtain ⟨id, h1, -, -, h2⟩ := enrichIdentity_spec w token claims cookies calls
    exact ⟨id, h1, h2⟩
  · intro w req id h
    unfold AuthMiddleware at h
    split at h
    · simp at h
    · rename_i token htok
      split at h
      · rename_i claims hval
        exact (enrichIdentity_proceed_inv w token claims [] [] id h).2.2
      · rename_i errMsg hval
        split at h
        · simp at h
        · rename_i refreshTok hrt
          split at h
          · simp at h
          · simp at h
          · rename_i res hres
            split at h
            · split at h
              · simp at h
              · rename_i claims2 hval2
                exact (enrichIdentity_proceed_inv w res.AccessToken claims2 _ _ id h).2.2
            · simp at h

theorem claim_C2_witness :
    (AuthMiddleware
        ⟨⟨"u"⟩, .ok ["k1"], 100, .okNonToken, .error "nouser", "debug"⟩
        ⟨some ⟨"t", true, ⟨"", "e@x", "s", "iss", none⟩, "k1", true⟩, none⟩).result
      = .proceed ⟨⟨"", "e@x", "s", "iss", none⟩, "guest", "s", "", "e@x", "", "",
          "", zeroTimeRFC3339⟩ ∧
    (⟨⟨"", "e@x", "s", "iss", none⟩, "guest", "s", "", "e@x", "", "", "",
        zeroTimeRFC3339⟩ : EnhancedClaims).Role ≠ "" :=
  ⟨by decide,
    claim_C2_enriched_role_nonempty.2
      ⟨⟨"u"⟩, .ok ["k1"], 100, .okNonToken, .error "nouser", "debug"⟩
      ⟨some ⟨"t", true, ⟨"", "e@x", "s", "iss", none⟩, "k1", true⟩, none⟩
      ⟨⟨"", "e@x", "s", "iss", none⟩, "guest", "s", "", "e@x", "", "",
        "", zeroTimeRFC3339⟩
      (by decide)⟩

/-- Claim C8: validation is idempotent — with the package state passed
explicitly, running `ValidateToken` twice on the same credential in the same
environment yields identical results, and a run leaves the package state
exactly as it found it (no hidden state mutation affects the second run). -/
theorem claim_C8_idempotent (st : HelpersState) (env : Env)
    (jwksFetch : Except String KeySet) (now : Int) (t : TokenStr) :
    (ValidateTokenSt (ValidateTokenSt st env jwksFetch now t).2 env jwksFetch now t).1
      = (ValidateTokenSt st env jwksFetch now t).1 ∧
    (ValidateTokenSt st env jwksFetch now t).2 = st :=
  ⟨rfl, rfl⟩

/-- Claim C9: on the unverified-decode fallback path the expiry check is also
skipped — a structurally well-formed but expired credential is returned as
valid claims, the middleware proceeds, and no refresh exchange is ever
issued while the key set is unreachable. -/
theorem claim_C9_fallback_skips_expiry (w : MwWorld) (req : Request)
    (tok : TokenStr) (m : String) (e : Int)
    (hurl : w.env.SUPABASE_URL ≠ "")
    (hfetch : w.jwksFetch = .error m)
    (hcookie : req.accessCookie = some tok)
    (hstruct : tok.structOk = true)
    (_hexp : tok.claims.ExpiresAt = some e)
    (_hpast : e < w.now) :
    ValidateToken w.env w.jwksFetch w.now tok = .ok tok.claims ∧
    (∃ id, (AuthMiddleware w req).result = .proceed id) ∧
    ∀ rt, ExtCall.refreshCall rt ∉ (AuthMiddleware w req).calls := by
  have hval : ValidateToken w.env w.jwksFetch w.now tok = .ok tok.claims := by
    simp [ValidateToken, hurl, hfetch, parseUnverified, hstruct]
  have hmw : AuthMiddleware w req = enrichIdentity w tok tok.claims [] [] := by
    simp [AuthMiddleware, hcookie, hval]
  refine ⟨hval, ?_, ?_⟩
  · obtain ⟨id, h1, -⟩ := enrichIdentity_spec w tok tok.claims [] []
    exact ⟨id, by rw [hmw]; exact h1⟩
  · intro rt hmem
    rw [hmw] at hmem
    have hin := enrichIdentity_no_refresh w tok tok.claims [] [] rt hmem
    simp at hin

theorem claim_C9_witness :
    (⟨"u"⟩ : Env).SUPABASE_URL ≠ "" ∧
    ((⟨"t", true, ⟨"", "e@x", "s", "iss", some 10⟩, "k1", true⟩ : TokenStr).claims.ExpiresAt
      = some 10 ∧ (10 : Int) < 100) ∧
    (ValidateToken ⟨"u"⟩ (.error "net") 100
        ⟨"t", true, ⟨"", "e@x", "s", "iss", some 10⟩, "k1", true⟩ =
      .ok ⟨"", "e@x", "s", "iss", some 10⟩ ∧
    (∃ id, (AuthMiddleware
        ⟨⟨"u"⟩, .error "net", 100, .okNonToken, .error "nouser", "debug"⟩
        ⟨some ⟨"t", true, ⟨"", "e@x", "s", "iss", some 10⟩, "k1", true⟩, some "r0"⟩).result
          = .proceed id) ∧
    ∀ rt, ExtCall.refreshCall rt ∉ (AuthMiddleware
        ⟨⟨"u"⟩, .error "net", 100, .okNonToken, .error "nouser", "debug"⟩
        ⟨some ⟨"t", true, ⟨"", "e@x", "s", "iss", some 10⟩, "k1", true⟩, some "r0"⟩).calls) :=
  ⟨by decide, ⟨rfl, by decide⟩,
    claim_C9_fallback_skips_expiry
      ⟨⟨"u"⟩, .error "net", 100, .okNonToken, .error "nouser", "debug"⟩
      ⟨some ⟨"t", true, ⟨"", "e@x", "s", "iss", some 10⟩, "k1", true⟩, some "r0"⟩
      ⟨"t", true, ⟨"", "e@x", "s", "iss", some 10⟩, "k1", true⟩ "net" 10
      (by decide) rfl rfl rfl rfl (by decide)⟩

/-- Claim C10: the enriched identity's `UserID` is always the raw claims
subject string — also when the subject is not a parsable UUID and the
identity degrades to `"guest"` — so `IsOwner` compares raw subject strings
and can hold for a guest identity. -/
theorem claim_C10_userid_raw_subject :
    (∀ (w : MwWorld) (token : TokenStr) (claims : CustomClaims)
        (cookies : List SetCookieCall) (calls : List ExtCall) (id : EnhancedClaims),
      (enrichIdentity w token claims cookies calls).result = .proceed id →
      id.UserID = claims.Subject ∧ EnhancedClaims.IsOwner id claims.Subject = true) ∧
    (∀ (w : MwWorld) (token : TokenStr) (claims : CustomClaims)
        (cookies : List SetCookieCall) (calls : List ExtCall),
      isUUID claims.Subject = false →
      ∃ id, (enrichIdentity w token claims cookies calls).result = .proceed id ∧
        id.UserID = claims.Subject ∧ id.Role = "guest" ∧
        EnhancedClaims.IsOwner id claims.Subject = true) := by
  constructor
  · intro w token claims cookies calls id h
    obtain ⟨-, huid, -⟩ := enrichIdentity_proceed_inv w token claims cookies calls id h
    exact ⟨huid, by simp [EnhancedClaims.IsOwner, huid]⟩
  · intro w token claims cookies calls hu
    refine ⟨⟨claims, "guest", claims.Subject, "", claims.Email, "", "", "",
      zeroTimeRFC3339⟩, ?_, rfl, rfl, ?_⟩
    · unfold enrichIdentity
      simp [hu]
    · simp [EnhancedClaims.IsOwner]

theorem claim_C10_witness :
    isUUID "not-a-uuid" = false ∧
    ∃ id, (enrichIdentity
        ⟨⟨"u"⟩, .ok ["k1"], 100, .okNonToken, .error "nouser", "debug"⟩
        ⟨"t", true, ⟨"", "e@x", "not-a-uuid", "iss", none⟩, "k1", true⟩
        ⟨"", "e@x", "not-a-uuid", "iss", none⟩ [] []).result = .proceed id ∧
      id.UserID = "not-a-uuid" ∧ id.Role = "guest" ∧
      EnhancedClaims.IsOwner id "not-a-uuid" = true :=
  ⟨by decide,
    claim_C10_userid_raw_subject.2
      ⟨⟨"u"⟩, .ok ["k1"], 100, .okNonToken, .error "nouser", "debug"⟩
      ⟨"t", true, ⟨"", "e@x", "not-a-uuid", "iss", none⟩, "k1", true⟩
      ⟨"", "e@x", "not-a-uuid", "iss", none⟩ [] [] (by decide)⟩

theorem append_length_ne (p q s : String) (h : q.length < p.length) :
    p ++ s ≠ q := by
  intro he
  have h2 := congrArg String.length he
  rw [String.length_append] at h2
  omega

/-- Claim C3 as stated is false on the code: when the refresh exchange
succeeds but the newly issued bearer credential fails re-validation, the
request does terminate 401 with reason `"Refreshed token validation
failed"`, but the two renewal cookies have already been set on the response
(the middleware sets them before re-validating). -/
theorem claim_C3_counterexample_cookies_set :
    (AuthMiddleware
        ⟨⟨"u"⟩, .ok ["k1"], 100,
          .okToken ⟨⟨"new", false, ⟨"", "e@x", "s", "iss", none⟩, "k1", false⟩,
            "r1", 3600⟩,
          .error "nouser", "debug"⟩
        ⟨some ⟨"old", true, ⟨"", "e@x", "s", "iss", some 10⟩, "k1", true⟩,
          some "r0"⟩).result =
      .reject 401 "Unauthorized access" "Refreshed token validation failed" ∧
    (AuthMiddleware
        ⟨⟨"u"⟩, .ok ["k1"], 100,
          .okToken ⟨⟨"new", false, ⟨"", "e@x", "s", "iss", none⟩, "k1", false⟩,
            "r1", 3600⟩,
          .error "nouser", "debug"⟩
        ⟨some ⟨"old", true, ⟨"", "e@x", "s", "iss", some 10⟩, "k1", true⟩,
          some "r0"⟩).cookies ≠ [] := by
  exact ⟨by decide, by decide⟩

/-- Claim C3 amended: when the refresh exchange succeeds (token response with
a non-empty access token) but the new bearer credential fails re-validation,
the request terminates 401 with reason `"Refreshed token validation failed"`
— but both renewal cookies (access and refresh) have already been set on the
response, because the middleware sets them before re-validating. -/
theorem claim_C3_amended_cookies_already_set (w : MwWorld) (req : Request)
    (tok : TokenStr) (e : String) (rt : String) (res : TokenResponse) (e2 : String)
    (hcookie : req.accessCookie = some tok)
    (hval : ValidateToken w.env w.jwksFetch w.now tok = .error e)
    (hrt : req.refreshCookie = some rt)
    (hro : w.refreshOutcome = .okToken res)
    (hraw : res.AccessToken.raw ≠ "")
    (hval2 : ValidateToken w.env w.jwksFetch w.now res.AccessToken = .error e2) :
    AuthMiddleware w req =
      ⟨.reject 401 "Unauthorized access" "Refreshed token validation failed",
        [⟨"access_token", res.AccessToken.raw, res.ExpiresIn, "/", "",
            w.GIN_MODE == "production", true⟩,
          ⟨"refresh_token", res.RefreshToken, 3600 * 24 * 30, "/", "",
            w.GIN_MODE == "production", true⟩],
        [.refreshCall rt]⟩ := by
  simp [AuthMiddleware, hcookie, hval, hrt, hro, hraw, hval2]

theorem claim_C3_witness :
    AuthMiddleware
        ⟨⟨"u"⟩, .ok ["k1"], 100,
          .okToken ⟨⟨"new2", false, ⟨"", "e@x", "s", "iss", none⟩, "k1", false⟩,
            "r1", 3600⟩,
          .error "nouser", "production"⟩
        ⟨some ⟨"old", true, ⟨"", "e@x", "s", "iss", some 10⟩, "k1", true⟩,
          some "r0"⟩ =
      ⟨.reject 401 "Unauthorized access" "Refreshed token validation failed",
        [⟨"access_token", "new2", 3600, "/", "", true, true⟩,
          ⟨"refresh_token", "r1", 3600 * 24 * 30, "/", "", true, true⟩],
        [.refreshCall "r0"]⟩ :=
  claim_C3_amended_cookies_already_set
    ⟨⟨"u"⟩, .ok ["k1"], 100,
      .okToken ⟨⟨"new2", false, ⟨"", "e@x", "s", "iss", none⟩, "k1", false⟩,
        "r1", 3600⟩,
      .error "nouser", "production"⟩
    ⟨some ⟨"old", true, ⟨"", "e@x", "s", "iss", some 10⟩, "k1", true⟩, some "r0"⟩
    ⟨"old", true, ⟨"", "e@x", "s", "iss", some 10⟩, "k1", true⟩
    "token validation failed: token has invalid claims: token is expired"
    "r0" ⟨⟨"new2", false, ⟨"", "e@x", "s", "iss", none⟩, "k1", false⟩, "r1", 3600⟩
    "token validation failed: token is malformed"
    rfl (by decide) rfl rfl (by decide) (by decide)

/-- Claim C4 as stated is false on the code: with an invalid bearer
credential and no refresh cookie, the 401 reason is the validator's own
error text, not `"JWT token not found in cookie"` (that reason is used only
when the bearer cookie itself is absent).  The renewal part holds: no
external call is made. -/
theorem claim_C4_counterexample_reason :
    AuthMiddleware
        ⟨⟨"u"⟩, .ok ["k1"], 100, .okNonToken, .error "nouser", "debug"⟩
        ⟨some ⟨"t", true, ⟨"", "e@x", "s", "iss", some 10⟩, "k1", true⟩, none⟩ =
      ⟨.reject 401 "Unauthorized access"
          "token validation failed: token has invalid claims: token is expired",
        [], []⟩ ∧
    "token validation failed: token has invalid claims: token is expired" ≠
      "JWT token not found in cookie" := by
  exact ⟨by decide, by decide⟩

/-- Claim C4 amended: when the bearer credential fails validation and no
refresh cookie is present, the request terminates 401 with the validator's
failure reason as the error text (the reason `"JWT token not found in
cookie"` is used only when the bearer cookie is absent), no cookies are set,
and no renewal attempt is made. -/
theorem claim_C4_amended_validator_reason (w : MwWorld) (req : Request)
    (tok : TokenStr) (e : String)
    (hcookie : req.accessCookie = some tok)
    (hval : ValidateToken w.env w.jwksFetch w.now tok = .error e)
    (hrt : req.refreshCookie = none) :
    AuthMiddleware w req = ⟨.reject 401 "Unauthorized access" e, [], []⟩ := by
  simp [AuthMiddleware, hcookie, hval, hrt]

theorem claim_C4_witness :
    AuthMiddleware
        ⟨⟨"u"⟩, .error "net", 100, .okNonToken, .error "nouser", "debug"⟩
        ⟨some ⟨"t", false, ⟨"", "e@x", "s", "iss", none⟩, "k1", false⟩, none⟩ =
      ⟨.reject 401 "Unauthorized access"
          ("JWKS validation failed and fallback parsing failed: " ++
            "token contains an invalid number of segments"),
        [], []⟩ :=
  claim_C4_amended_validator_reason
    ⟨⟨"u"⟩, .error "net", 100, .okNonToken, .error "nouser", "debug"⟩
    ⟨some ⟨"t", false, ⟨"", "e@x", "s", "iss", none⟩, "k1", false⟩, none⟩
    ⟨"t", false, ⟨"", "e@x", "s", "iss", none⟩, "k1", false⟩
    ("JWKS validation failed and fallback parsing failed: " ++
      "token contains an invalid number of segments")
    rfl (by decide) rfl

/-- Claim C5: on confirmed renewal success (refresh exchange returned a token
response with a non-empty access token, and the new credential re-validated)
exactly two response cookies are issued — the bearer cookie with the
provider-specified expiry and the refresh cookie with a 30-day lifetime,
both with path `"/"`, HTTP-only, and Secure exactly when `GIN_MODE` is
`"production"` — and the request proceeds. -/
theorem claim_C5_renewal_cookies (w : MwWorld) (req : Request)
    (tok : TokenStr) (e : String) (rt : String) (res : TokenResponse)
    (c2 : CustomClaims)
    (hcookie : req.accessCookie = some tok)
    (hval : ValidateToken w.env w.jwksFetch w.now tok = .error e)
    (hrt : req.refreshCookie = some rt)
    (hro : w.refreshOutcome = .okToken res)
    (hraw : res.AccessToken.raw ≠ "")
    (hval2 : ValidateToken w.env w.jwksFetch w.now res.AccessToken = .ok c2) :
    (AuthMiddleware w req).cookies =
      [⟨"access_token", res.AccessToken.raw, res.ExpiresIn, "/", "",
          w.GIN_MODE == "production", true⟩,
        ⟨"refresh_token", res.RefreshToken, 3600 * 24 * 30, "/", "",
          w.GIN_MODE == "production", true⟩] ∧
    ∃ id, (AuthMiddleware w req).result = .proceed id := by
  have hmw : AuthMiddleware w req =
      enrichIdentity w res.AccessToken c2
        [⟨"access_token", res.AccessToken.raw, res.ExpiresIn, "/", "",
            w.GIN_MODE == "production", true⟩,
          ⟨"refresh_token", res.RefreshToken, 3600 * 24 * 30, "/", "",
            w.GIN_MODE == "production", true⟩]
        [.refreshCall rt] := by
    simp [AuthMiddleware, hcookie, hval, hrt, hro, hraw, hval2]
  constructor
  · rw [hmw, enrichIdentity_cookies]
  · obtain ⟨id, h1, -⟩ := enrichIdentity_spec w res.AccessToken c2 _ _
    exact ⟨id, by rw [hmw]; exact h1⟩

theorem claim_C5_witness :
    (AuthMiddleware
        ⟨⟨"u"⟩, .ok ["k1"], 100,
          .okToken ⟨⟨"new", true, ⟨"", "e@x", "s", "iss", some 200⟩, "k1", true⟩,
            "r1", 3600⟩,
          .error "nouser", "debug"⟩
        ⟨some ⟨"old", true, ⟨"", "e@x", "s", "iss", some 10⟩, "k1", true⟩,
          some "r0"⟩).cookies =
      [⟨"access_token", "new", 3600, "/", "", false, true⟩,
        ⟨"refresh_token", "r1", 3600 * 24 * 30, "/", "", false, true⟩] ∧
    ∃ id, (AuthMiddleware
        ⟨⟨"u"⟩, .ok ["k1"], 100,
          .okToken ⟨⟨"new", true, ⟨"", "e@x", "s", "iss", some 200⟩, "k1", true⟩,
            "r1", 3600⟩,
          .error "nouser", "debug"⟩
        ⟨some ⟨"old", true, ⟨"", "e@x", "s", "iss", some 10⟩, "k1", true⟩,
          some "r0"⟩).result = .proceed id :=
  claim_C5_renewal_cookies
    ⟨⟨"u"⟩, .ok ["k1"], 100,
      .okToken ⟨⟨"new", true, ⟨"", "e@x", "s", "iss", some 200⟩, "k1", true⟩,
        "r1", 3600⟩,
      .error "nouser", "debug"⟩
    ⟨some ⟨"old", true, ⟨"", "e@x", "s", "iss", some 10⟩, "k1", true⟩, some "r0"⟩
    ⟨"old", true, ⟨"", "e@x", "s", "iss", some 10⟩, "k1", true⟩
    "token validation failed: token has invalid claims: token is expired"
    "r0" ⟨⟨"new", true, ⟨"", "e@x", "s", "iss", some 200⟩, "k1", true⟩, "r1", 3600⟩
    ⟨"", "e@x", "s", "iss", some 200⟩
    rfl (by decide) rfl rfl (by decide) (by decide)

/-- Claim C6: a missing identity-provider base URL is fatal at process start
— `LoadConfig` rejects it before the server starts — and is never a
per-request failure: once `LoadConfig` has succeeded, no `ValidateToken`
call on that environment can return the `"SUPABASE_URL not set"` error. -/
theorem claim_C6_config_fatal_at_start :
    (∀ e : ProcessEnv, e.SUPABASE_URL = "" →
      LoadConfig e = .error "SUPABASE_URL is required") ∧
    (∀ (e : ProcessEnv) (cfg : Config) (jwksFetch : Except String KeySet)
        (now : Int) (t : TokenStr),
      LoadConfig e = .ok cfg →
      ValidateToken ⟨e.SUPABASE_URL⟩ jwksFetch now t ≠
        .error "SUPABASE_URL not set") := by
  constructor
  · intro e he
    simp [LoadConfig, he]
  · intro e cfg jwksFetch now t hcfg
    have hurl : e.SUPABASE_URL ≠ "" := by
      intro h0
      simp [LoadConfig, h0] at hcfg
    intro hcontra
    unfold ValidateToken at hcontra
    rw [if_neg (by simpa using hurl)] at hcontra
    cases jwksFetch with
    | error m =>
      cases hp : parseUnverified t with
      | error pe =>
        simp [hp] at hcontra
        exact append_length_ne _ _ pe (by decide) hcontra
      | ok c =>
        simp [hp] at hcontra
    | ok ks =>
      cases hp : parseWithClaims ks now t with
      | error pe =>
        simp [hp] at hcontra
        exact append_length_ne _ _ pe (by decide) hcontra
      | ok c =>
        simp [hp] at hcontra

theorem claim_C6_witness :
    LoadConfig ⟨"8080", "", "k", "m", "c", "ck", "cs", "mp", "development",
        "info"⟩ = .error "SUPABASE_URL is required" ∧
    ValidateToken ⟨"u"⟩ (.error "net") 100
        ⟨"t", true, ⟨"", "e@x", "s", "iss", none⟩, "k1", true⟩ ≠
      .error "SUPABASE_URL not set" :=
  ⟨claim_C6_config_fatal_at_start.1
      ⟨"8080", "", "k", "m", "c", "ck", "cs", "mp", "development", "info"⟩ rfl,
    claim_C6_config_fatal_at_start.2
      ⟨"8080", "u", "k", "m", "c", "ck", "cs", "mp", "development", "info"⟩
      ⟨"8080", "u", "k", "m", "c", "ck", "cs", "mp", "development", "info"⟩
      (.error "net") 100 ⟨"t", true, ⟨"", "e@x", "s", "iss", none⟩, "k1", true⟩
      (by decide)⟩

/-- Claim C7 as stated is false on the code: an expired credential on the
key-resolution-success path yields the reason `"token validation failed:
token has invalid claims: token is expired"` — never one of the bare strings
`"expired"`, `"malformed"`, `"invalid signature"` — and a credential with a
bogus issuer but valid signature and expiry is accepted, so the issuer is
not among the checks. -/
theorem claim_C7_counterexample_reason_strings :
    (ValidateToken ⟨"u"⟩ (.ok ["k1"]) 100
        ⟨"t", true, ⟨"", "e@x", "s", "iss", some 10⟩, "k1", true⟩ =
      .error "token validation failed: token has invalid claims: token is expired" ∧
    "token validation failed: token has invalid claims: token is expired" ≠
      "expired" ∧
    "token validation failed: token has invalid claims: token is expired" ≠
      "malformed" ∧
    "token validation failed: token has invalid claims: token is expired" ≠
      "invalid signature") ∧
    ValidateToken ⟨"u"⟩ (.ok ["k1"]) 100
        ⟨"t", true, ⟨"", "e@x", "s", "bogus-issuer", some 200⟩, "k1", true⟩ =
      .ok ⟨"", "e@x", "s", "bogus-issuer", some 200⟩ := by
  exact ⟨⟨by decide, by decide, by decide, by decide⟩, by decide⟩

/-- Claim C7 amended: while key resolution succeeds, validation checks the
credential's structure, key availability, signature, and expiry (the issuer
is not separately enforced), and on failure returns an error whose reason is
`"token validation failed: "` followed by the underlying parse error — never
one of the bare strings `"expired"`, `"malformed"`, `"invalid signature"`. -/
theorem claim_C7_amended_checks (env : Env) (ks : KeySet) (now : Int)
    (t : TokenStr) (hurl : env.SUPABASE_URL ≠ "") :
    (ValidateToken env (.ok ks) now t = .ok t.claims ↔
      (t.structOk = true ∧ ks.contains t.kid = true ∧ t.sigOk = true ∧
        notYetExpired now t.claims = true)) ∧
    (∀ r, ValidateToken env (.ok ks) now t = .error r →
      (∃ s, r = "token validation failed: " ++ s) ∧
      r ≠ "expired" ∧ r ≠ "malformed" ∧ r ≠ "invalid signature") := by
  have hmain : ValidateToken env (.ok ks) now t =
      match parseWithClaims ks now t with
      | .error e => .error ("token validation failed: " ++ e)
      | .ok claims => .ok claims := by
    simp [ValidateToken, hurl]
  constructor
  · rw [hmain]
    unfold parseWithClaims
    by_cases h1 : t.structOk <;> by_cases h2 : t.kid ∈ ks <;>
      by_cases h3 : t.sigOk <;> by_cases h4 : notYetExpired now t.claims <;>
      simp [h1, h2, h3, h4]
  · intro r hr
    rw [hmain] at hr
    cases hp : parseWithClaims ks now t with
    | ok c =>
      rw [hp] at hr
      simp at hr
    | error pe =>
      rw [hp] at hr
      simp at hr
      subst hr
      exact ⟨⟨pe, rfl⟩, append_length_ne _ _ pe (by decide),
        append_length_ne _ _ pe (by decide), append_length_ne _ _ pe (by decide)⟩

theorem claim_C7_witness :
    ((⟨"u"⟩ : Env).SUPABASE_URL ≠ "") ∧
    (∃ s, "token validation failed: token signature is invalid" =
        "token validation failed: " ++ s) ∧
    "token validation failed: token signature is invalid" ≠ "expired" ∧
    "token validation failed: token signature is invalid" ≠ "malformed" ∧
    "token validation failed: token signature is invalid" ≠ "invalid signature" :=
  ⟨by decide,
    (claim_C7_amended_checks ⟨"u"⟩ ["k1"] 100
        ⟨"t", true, ⟨"", "e@x", "s", "iss", some 200⟩, "k1", false⟩
        (by decide)).2
      "token validation failed: token signature is invalid" (by decide)⟩

end Bashbay
